import Mathlib

/-!
Verification of the Philips air purifier fan platform
(custom_components/philips_airpurifier/fan.py) against its specification.

The embedding models the Python module shallowly:
- Python dict values carried over the wire become the inductive type
  PValue (strings, integers, booleans);
- a status snapshot (Python dict) becomes an association list with the
  Python dict update semantics (replace in place, else append);
- the entity object becomes the record FanState, with Python attributes
  that may be unset (None, or never assigned) as Option fields;
- async methods that raise become functions into Except PyError;
- the asynchronous observe loop becomes a labelled transition function
  step : FanState -> Event -> FanState driven by event traces.

The module fan.py imports its protocol-key constants and value maps from
const.py, which is not part of the sources; those constants are modelled
from the specification (they are opaque distinct string tokens as far as
fan.py is concerned) and are marked as such below.
-/

namespace PhilipsAirPurifier

/-- A scalar value carried in a device status mapping: the wire format
delivers strings, integers and boolean-like tokens (spec section 3). -/
inductive PValue where
  | str : String → PValue
  | int : Int → PValue
  | bool : Bool → PValue
deriving DecidableEq, Repr

/-- A status snapshot: a Python dict from protocol key to scalar value,
modelled as an association list whose keys are unique in practice. -/
abbrev Status := List (String × PValue)

/-- Python str() of a scalar, as used by f-string interpolation in
fan.py line 180. -/
def pyStr : PValue → String
  | .str s => s
  | .int n => toString n
  | .bool b => if b then "True" else "False"

/-- Python dict lookup d[k] / d.get(k) as Option. -/
def dictGet (d : Status) (k : String) : Option PValue :=
  d.lookup k

/-- Python dict update d.update({k: v}): if the key is present its value
is replaced in place (insertion order kept), otherwise the pair is
appended at the end. -/
def dictUpdate (d : Status) (k : String) (v : PValue) : Status :=
  match d with
  | [] => [(k, v)]
  | (k0, v0) :: rest =>
    if k0 = k then (k, v) :: rest else (k0, v0) :: dictUpdate rest k v

/-- Modelled from the spec: const.py is absent from the sources; the
protocol key for the power state ("boolean-like 0/1 token", spec
sections 3 and 8). -/
def PHILIPS_POWER : String := "power"

/-- Modelled from the spec: const.py is absent from the sources; the
protocol key for the device id used to derive SessionIdentity. -/
def PHILIPS_DEVICE_ID : String := "deviceId"

/-- Modelled from the spec: const.py is absent from the sources; the
protocol key for the fan mode (values M, AG, S, T). -/
def PHILIPS_MODE : String := "mode"

/-- Modelled from the spec: const.py is absent from the sources; the
protocol key for the manual fan speed (values 1, 2). -/
def PHILIPS_SPEED : String := "speed"

/-- Modelled from the spec: const.py is absent from the sources; the
remaining protocol keys read by the attribute table of fan.py,
as opaque distinct tokens. -/
def PHILIPS_AIR_QUALITY_INDEX : String := "air_quality_index"

/-- Modelled from the spec: const.py protocol key token. -/
def PHILIPS_CHILD_LOCK : String := "child_lock"

/-- Modelled from the spec: const.py protocol key token. -/
def PHILIPS_DEVICE_VERSION : String := "device_version"

/-- Modelled from the spec: const.py protocol key token. -/
def PHILIPS_DISPLAY_BACKLIGHT : String := "display_backlight"

/-- Modelled from the spec: const.py protocol key token. -/
def PHILIPS_INDOOR_ALLERGEN_INDEX : String := "indoor_allergen_index"

/-- Modelled from the spec: const.py protocol key token. -/
def PHILIPS_LANGUAGE : String := "language"

/-- Modelled from the spec: const.py protocol key token. -/
def PHILIPS_LIGHT_BRIGHTNESS : String := "light_brightness"

/-- Modelled from the spec: const.py protocol key token. -/
def PHILIPS_MODEL_ID : String := "model_id"

/-- Modelled from the spec: const.py protocol key token. -/
def PHILIPS_NAME : String := "name"

/-- Modelled from the spec: const.py protocol key token. -/
def PHILIPS_PM25 : String := "pm25"

/-- Modelled from the spec: const.py protocol key token. -/
def PHILIPS_PREFERRED_INDEX : String := "preferred_index"

/-- Modelled from the spec: const.py protocol key token. -/
def PHILIPS_PRODUCT_ID : String := "product_id"

/-- Modelled from the spec: const.py protocol key token. -/
def PHILIPS_RUNTIME : String := "runtime"

/-- Modelled from the spec: const.py protocol key token. -/
def PHILIPS_SOFTWARE_VERSION : String := "software_version"

/-- Modelled from the spec: const.py protocol key token. -/
def PHILIPS_TOTAL_VOLATILE_ORGANIC_COMPOUNDS : String := "total_volatile_organic_compounds"

/-- Modelled from the spec: const.py protocol key token. -/
def PHILIPS_TYPE : String := "type"

/-- Modelled from the spec: const.py protocol key token. -/
def PHILIPS_WIFI_VERSION : String := "wifi_version"

/-- Modelled from the spec: const.py attribute name token (the
host-facing name paired with each protocol key). -/
def ATTR_AIR_QUALITY_INDEX : String := "attr_air_quality_index"

/-- Modelled from the spec: const.py attribute name token. -/
def ATTR_CHILD_LOCK : String := "attr_child_lock"

/-- Modelled from the spec: const.py attribute name token. -/
def ATTR_DEVICE_ID : String := "attr_device_id"

/-- Modelled from the spec: const.py attribute name token. -/
def ATTR_DEVICE_VERSION : String := "attr_device_version"

/-- Modelled from the spec: const.py attribute name token. -/
def ATTR_DISPLAY_BACKLIGHT : String := "attr_display_backlight"

/-- Modelled from the spec: const.py attribute name token. -/
def ATTR_INDOOR_ALLERGEN_INDEX : String := "attr_indoor_allergen_index"

/-- Modelled from the spec: const.py attribute name token. -/
def ATTR_LANGUAGE : String := "attr_language"

/-- Modelled from the spec: const.py attribute name token. -/
def ATTR_LIGHT_BRIGHTNESS : String := "attr_light_brightness"

/-- Modelled from the spec: const.py attribute name token. -/
def ATTR_MODEL_ID : String := "attr_model_id"

/-- Modelled from the spec: const.py attribute name token. -/
def ATTR_NAME : String := "attr_name"

/-- Modelled from the spec: const.py attribute name token. -/
def ATTR_PM25 : String := "attr_pm25"

/-- Modelled from the spec: const.py attribute name token. -/
def ATTR_PREFERRED_INDEX : String := "attr_preferred_index"

/-- Modelled from the spec: const.py attribute name token. -/
def ATTR_PRODUCT_ID : String := "attr_product_id"

/-- Modelled from the spec: const.py attribute name token. -/
def ATTR_RUNTIME : String := "attr_runtime"

/-- Modelled from the spec: const.py attribute name token. -/
def ATTR_SOFTWARE_VERSION : String := "attr_software_version"

/-- Modelled from the spec: const.py attribute name token. -/
def ATTR_TOTAL_VOLATILE_ORGANIC_COMPOUNDS : String := "attr_total_volatile_organic_compounds"

/-- Modelled from the spec: const.py attribute name token. -/
def ATTR_TYPE : String := "attr_type"

/-- Modelled from the spec: const.py attribute name token. -/
def ATTR_WIFI_VERSION : String := "attr_wifi_version"

/-- The only supported model of this platform (fan.py PLATFORM_SCHEMA
and spec section 8 scenario). -/
def MODEL_AC4236 : String := "AC4236"

/-- Constant of homeassistant.components.fan: the "off" named speed. -/
def SPEED_OFF : String := "off"

/-- Modelled from the spec: const.py named speed token for manual
speed 1. -/
def SPEED_1 : String := "speed 1"

/-- Modelled from the spec: const.py named speed token for manual
speed 2. -/
def SPEED_2 : String := "speed 2"

/-- Modelled from the spec: const.py named speed token for auto mode. -/
def SPEED_MODE_AUTO : String := "auto"

/-- Modelled from the spec: const.py named speed token for sleep
mode. -/
def SPEED_MODE_SLEEP : String := "sleep"

/-- Modelled from the spec: const.py named speed token for turbo
mode. -/
def SPEED_MODE_TURBO : String := "turbo"

/-- Modelled from the spec: const.py value map for the display
backlight key, translating the boolean-like 0/1 wire token. -/
def PHILIPS_DISPLAY_BACKLIGHT_MAP : List (PValue × PValue) :=
  [(.str "0", .bool false), (.str "1", .bool true)]

/-- Modelled from the spec: const.py value map for the preferred index
key, translating the wire token to a human-readable index name. -/
def PHILIPS_PREFERRED_INDEX_MAP : List (PValue × PValue) :=
  [(.str "0", .str "Indoor Allergen Index"), (.str "1", .str "PM2.5")]

/-- Python round() applied to the exact rational x / d, ties to even
(d positive; the source divides a millisecond count by 1000, where the
rational value and the IEEE double agree for all realistic runtimes). -/
def pyRoundDiv (x : Int) (d : Int) : Int :=
  let q := x.fdiv d
  let r := x.emod d
  if 2 * r < d then q
  else if d < 2 * r then q + 1
  else if q % 2 = 0 then q else q + 1

/-- Zero-pad to two digits (input in [0, 59]). -/
def pad2 (n : Int) : String :=
  if n < 10 then "0" ++ toString n else toString n

/-- Python str(timedelta(seconds=secs)): normalises into whole days plus
a nonnegative remainder, prints days only when nonzero, singular for
one day, hours unpadded, minutes and seconds two-padded. -/
def timedeltaStr (secs : Int) : String :=
  let days := secs.fdiv 86400
  let rem := secs.emod 86400
  let h := rem.fdiv 3600
  let m := (rem.emod 3600).fdiv 60
  let s := rem.emod 60
  let hms := toString h ++ ":" ++ pad2 m ++ ":" ++ pad2 s
  if days = 0 then hms
  else if days = 1 ∨ days = -1 then toString days ++ " day, " ++ hms
  else toString days ++ " days, " ++ hms

/-- The runtime value map of fan.py line 237:
lambda x: str(timedelta(seconds=round(x / 1000))).
Python bool is an int subtype, so a bool argument is arithmetic; on a
str argument CPython would raise TypeError, which is outside the
modelled domain (the device reports runtime as an integer). -/
def formatRuntime : PValue → PValue
  | .int x => .str (timedeltaStr (pyRoundDiv x 1000))
  | .bool b => .str (timedeltaStr (pyRoundDiv (if b then 1 else 0) 1000))
  | .str s => .str s

/-- A value map as passed to append in fan.py: either a dict or a
callable (or absent, modelled at use sites by Option). -/
inductive ValueMap where
  | dictMap : List (PValue × PValue) → ValueMap
  | fnMap : (PValue → PValue) → ValueMap

/-- The value translation inside append (fan.py lines 217-220): a dict
map applies only when the raw value is one of its keys, a callable is
always applied, anything else leaves the raw value unchanged. -/
def applyValueMap : Option ValueMap → PValue → PValue
  | some (.dictMap m), v =>
    match m.lookup v with
    | some w => w
    | none => v
  | some (.fnMap f), v => f v
  | none, v => v

/-- The helper append of device_state_attributes (fan.py lines
209-221): when the protocol key is present in the cached status, add
the (possibly value-mapped) value under the attribute name; otherwise
leave the attribute dict unchanged. -/
def append (attributes : Status) (key : String) (philips_key : String)
    (value_map : Option ValueMap) (device_status : Status) : Status :=
  match dictGet device_status philips_key with
  | some v => dictUpdate attributes key (applyValueMap value_map v)
  | none => attributes

/-- The attribute table of fan.py lines 223-242: (attribute name,
protocol key, optional value map). -/
def attributesTable : List (String × String × Option ValueMap) :=
  [ (ATTR_AIR_QUALITY_INDEX, PHILIPS_AIR_QUALITY_INDEX, none),
    (ATTR_CHILD_LOCK, PHILIPS_CHILD_LOCK, none),
    (ATTR_DEVICE_ID, PHILIPS_DEVICE_ID, none),
    (ATTR_DEVICE_VERSION, PHILIPS_DEVICE_VERSION, none),
    (ATTR_DISPLAY_BACKLIGHT, PHILIPS_DISPLAY_BACKLIGHT,
      some (.dictMap PHILIPS_DISPLAY_BACKLIGHT_MAP)),
    (ATTR_INDOOR_ALLERGEN_INDEX, PHILIPS_INDOOR_ALLERGEN_INDEX, none),
    (ATTR_LANGUAGE, PHILIPS_LANGUAGE, none),
    (ATTR_LIGHT_BRIGHTNESS, PHILIPS_LIGHT_BRIGHTNESS, none),
    (ATTR_MODEL_ID, PHILIPS_MODEL_ID, none),
    (ATTR_NAME, PHILIPS_NAME, none),
    (ATTR_PM25, PHILIPS_PM25, none),
    (ATTR_PREFERRED_INDEX, PHILIPS_PREFERRED_INDEX,
      some (.dictMap PHILIPS_PREFERRED_INDEX_MAP)),
    (ATTR_PRODUCT_ID, PHILIPS_PRODUCT_ID, none),
    (ATTR_RUNTIME, PHILIPS_RUNTIME, some (.fnMap formatRuntime)),
    (ATTR_SOFTWARE_VERSION, PHILIPS_SOFTWARE_VERSION, none),
    (ATTR_TOTAL_VOLATILE_ORGANIC_COMPOUNDS,
      PHILIPS_TOTAL_VOLATILE_ORGANIC_COMPOUNDS, none),
    (ATTR_TYPE, PHILIPS_TYPE, none),
    (ATTR_WIFI_VERSION, PHILIPS_WIFI_VERSION, none) ]

/-- device_state_attributes (fan.py lines 208-247) as a function of the
cached device status: fold append over the table starting from the
empty dict. -/
def device_state_attributes (device_status : Status) : Status :=
  attributesTable.foldl
    (fun acc row => append acc row.1 row.2.1 row.2.2 device_status) []

/-- PhilipsAC4236.SPEED_LIST (fan.py lines 263-270). -/
def SPEED_LIST : List String :=
  [SPEED_OFF, SPEED_1, SPEED_2, SPEED_MODE_AUTO, SPEED_MODE_SLEEP,
   SPEED_MODE_TURBO]

/-- PhilipsAC4236.speed (fan.py lines 280-296) as a function of the
cached device status; the Python property falls off the end (returns
None) when no branch matches. -/
def speed (device_status : Status) : Option String :=
  let power := dictGet device_status PHILIPS_POWER
  let mode := dictGet device_status PHILIPS_MODE
  let spd := dictGet device_status PHILIPS_SPEED
  if power = some (.str "0") then some SPEED_OFF
  else if mode = some (.str "M") ∧ spd = some (.str "1") then some SPEED_1
  else if mode = some (.str "M") ∧ spd = some (.str "2") then some SPEED_2
  else if mode = some (.str "AG") then some SPEED_MODE_AUTO
  else if mode = some (.str "S") then some SPEED_MODE_SLEEP
  else if mode = some (.str "T") then some SPEED_MODE_TURBO
  else none

/-- An exception crossing the init boundary: either an arbitrary raised
exception propagated unchanged, or the PlatformNotReady signal raised
by fan.py line 183. -/
inductive PyError where
  | raised : String → PyError
  | platformNotReady : PyError
deriving DecidableEq, Repr

/-- The entity object state: Python attributes that start as None or
are assigned only later are Option fields. device_state is the field
initialised to an empty dict by the constructor (fan.py line 170),
device_status the differently named field the update path and all
readers use (fan.py line 196); observer_task is none while unset or
set to None, some running once a task was created. -/
structure FanState where
  host : String
  model : String
  name : String
  icon : String
  available : Bool
  state : Option Bool
  unique_id : Option String
  device_state : Status
  device_status : Option Status
  client_open : Bool
  observer_task : Option Bool
deriving DecidableEq, Repr

/-- The constructor chain PhilipsGenericFan.__init__ (fan.py lines
132-139) plus PhilipsGenericCoAPFan.__init__ (lines 168-170). -/
def mkFan (host model name icon : String) : FanState :=
  { host := host, model := model, name := name, icon := icon,
    available := false, state := none, unique_id := none,
    device_state := [], device_status := none,
    client_open := false, observer_task := none }

/-- Outcomes of the two awaited network operations that init performs:
CoAPClient.create and client.get_status. -/
structure InitEnv where
  create_result : Except PyError Unit
  get_status_result : Except PyError Status

/-- PhilipsGenericCoAPFan.init (fan.py lines 172-183). The client
creation stands before the try block, so its exception propagates
unchanged; inside the try block any exception (fetch failure or the
KeyError of the device-id lookup) becomes PlatformNotReady. On an
error the caller never receives the object. -/
def init (s : FanState) (env : InitEnv) : Except PyError FanState :=
  match env.create_result with
  | .error e => .error e
  | .ok _ =>
    let s1 := { s with client_open := true, observer_task := none }
    match env.get_status_result with
    | .error _ => .error .platformNotReady
    | .ok status =>
      match dictGet status PHILIPS_DEVICE_ID with
      | none => .error .platformNotReady
      | some device_id =>
        .ok { s1 with unique_id := some (s1.model ++ "-" ++ pyStr device_id) }

/-- PhilipsGenericCoAPFan._update_status (fan.py lines 193-197): mark
available, recompute the on/off state from the power key, replace the
whole cached status. -/
def update_status (s : FanState) (status : Status) : FanState :=
  { s with available := true,
           state := some (decide (dictGet status PHILIPS_POWER = some (.str "1"))),
           device_status := some status }

/-- The events that drive the entity after init: being added to the
host (starts the observe task, fan.py line 186), a snapshot yielded by
the observe stream (consumed by the loop of lines 188-191 while the
task runs), a failure of the observe stream (the async-for raises and
the task dies silently), and removal from the host (the inherited
no-op of fan.py lines 147-148). -/
inductive Event where
  | addedToHass
  | observeUpdate (status : Status)
  | observeStreamFailed
  | willRemoveFromHass
deriving DecidableEq, Repr

/-- One transition of the entity. Snapshots are consumed only while the
observe task is running; removal from the host changes nothing because
PhilipsGenericCoAPFan does not override the inherited pass. -/
def step (s : FanState) : Event → FanState
  | .addedToHass => { s with observer_task := some true }
  | .observeUpdate status =>
    if s.observer_task = some true then update_status s status else s
  | .observeStreamFailed =>
    if s.observer_task = some true then { s with observer_task := some false }
    else s
  | .willRemoveFromHass => s

/-- Run a trace of events. -/
def run (s : FanState) : List Event → FanState
  | [] => s
  | e :: es => run (step s e) es

/-- PhilipsGenericCoAPFan.is_on (fan.py lines 203-205): returns the
raw cached state, which is None before any snapshot was consumed. -/
def is_on (s : FanState) : Option Bool := s.state

/-- async_setup_platform (fan.py lines 106-128): dispatch on the model,
build and init the device, add it as the only entity; an unsupported
model adds nothing, an init failure propagates and adds nothing. -/
def async_setup_platform (host model name icon : String) (env : InitEnv) :
    Except PyError (List FanState) :=
  if model = MODEL_AC4236 then
    match init (mkFan host model name icon) env with
    | .error e => .error e
    | .ok s => .ok [s]
  else .ok []

/-- The fold step of device_state_attributes, named for the lemmas. -/
def attrStep (device_status : Status) (acc : Status)
    (row : String × String × Option ValueMap) : Status :=
  append acc row.1 row.2.1 row.2.2 device_status

theorem device_state_attributes_eq (S : Status) :
    device_state_attributes S = attributesTable.foldl (attrStep S) [] := rfl

theorem dictUpdate_lookup (d : Status) (k : String) (v : PValue) (a : String) :
    (dictUpdate d k v).lookup a = if a = k then some v else d.lookup a := by
  induction d with
  | nil =>
    by_cases h : a = k
    · have hb : (a == k) = true := beq_iff_eq.mpr h
      simp [dictUpdate, List.lookup, hb, h]
    · have hb : (a == k) = false := beq_eq_false_iff_ne.mpr h
      simp [dictUpdate, List.lookup, hb, h]
  | cons p rest ih =>
    obtain ⟨k0, v0⟩ := p
    by_cases h0 : k0 = k
    · subst h0
      by_cases h : a = k0
      · have hb : (a == k0) = true := beq_iff_eq.mpr h
        simp [dictUpdate, List.lookup, hb, h]
      · have hb : (a == k0) = false := beq_eq_false_iff_ne.mpr h
        simp [dictUpdate, List.lookup, hb, h]
    · by_cases h : a = k0
      · subst h
        have hb : (a == a) = true := beq_iff_eq.mpr rfl
        simp [dictUpdate, h0, List.lookup, hb, h0]
      · have hb : (a == k0) = false := beq_eq_false_iff_ne.mpr h
        simp [dictUpdate, h0, List.lookup, hb, ih]

theorem attrStep_lookup_ne (S acc : Status)
    (row : String × String × Option ValueMap) (a : String) (h : row.1 ≠ a) :
    (attrStep S acc row).lookup a = acc.lookup a := by
  unfold attrStep append
  cases hg : dictGet S row.2.1 with
  | none => rfl
  | some v => simp [dictUpdate_lookup, Ne.symm h]

theorem attrStep_lookup_self (S acc : Status)
    (row : String × String × Option ValueMap) :
    (attrStep S acc row).lookup row.1 =
      match dictGet S row.2.1 with
      | some v => some (applyValueMap row.2.2 v)
      | none => acc.lookup row.1 := by
  unfold attrStep append
  cases hg : dictGet S row.2.1 with
  | none => rfl
  | some v => simp [dictUpdate_lookup]

theorem foldl_attrStep_lookup_not_mem (S : Status)
    (rows : List (String × String × Option ValueMap)) (acc : Status)
    (a : String) (h : a ∉ rows.map (fun r => r.1)) :
    (rows.foldl (attrStep S) acc).lookup a = acc.lookup a := by
  induction rows generalizing acc with
  | nil => rfl
  | cons r rs ih =>
    simp only [List.map_cons, List.mem_cons, not_or] at h
    rw [List.foldl_cons, ih _ (by simpa using h.2),
      attrStep_lookup_ne _ _ _ _ (Ne.symm h.1)]

theorem foldl_attrStep_lookup_mem (S : Status)
    (rows : List (String × String × Option ValueMap)) (acc : Status)
    (r : String × String × Option ValueMap) (hr : r ∈ rows)
    (hnd : (rows.map (fun row => row.1)).Nodup) :
    (rows.foldl (attrStep S) acc).lookup r.1 =
      match dictGet S r.2.1 with
      | some v => some (applyValueMap r.2.2 v)
      | none => acc.lookup r.1 := by
  induction rows generalizing acc with
  | nil => cases hr
  | cons r0 rs ih =>
    simp only [List.map_cons, List.nodup_cons] at hnd
    rw [List.foldl_cons]
    rcases List.mem_cons.mp hr with heq | hmem
    · subst heq
      rw [foldl_attrStep_lookup_not_mem S rs _ _ (by simpa using hnd.1),
        attrStep_lookup_self]
    · have hne : r0.1 ≠ r.1 := by
        intro hcontra
        exact hnd.1 (hcontra ▸ List.mem_map.mpr ⟨r, hmem, rfl⟩)
      rw [ih _ hmem hnd.2]
      cases hg : dictGet S r.2.1 with
      | none => exact attrStep_lookup_ne S acc r0 r.1 hne
      | some v => rfl

/-- The first-fetch snapshot of the spec section 8 scenario. -/
def sampleFetch : Status :=
  [(PHILIPS_DEVICE_ID, .str "AC4236-001"), (PHILIPS_POWER, .str "1"),
   (PHILIPS_MODE, .str "M"), (PHILIPS_SPEED, .str "2")]

/-- An init environment where both network operations succeed and the
first fetch returns the sample snapshot. -/
def sampleEnv : InitEnv :=
  { create_result := .ok (), get_status_result := .ok sampleFetch }

/-- A freshly constructed entity for the sample host. -/
def sampleFan : FanState :=
  mkFan "10.0.0.5" MODEL_AC4236 "Philips AirPurifier" "mdi:air-purifier"

/-- The entity state produced by a successful init of sampleFan in
sampleEnv. -/
def sampleInitState : FanState :=
  { sampleFan with client_open := true, unique_id := some "AC4236-AC4236-001" }

theorem init_sample_eq : init sampleFan sampleEnv = .ok sampleInitState := by
  rfl

/-- Shape of every successful init result: the fetch succeeded, its
snapshot carried the device id, and the returned state is the input
state with the client opened, the observer task slot set to None and
the unique id derived from model and device id; every other field,
the status cache included, is untouched. -/
theorem init_ok_shape (s s1 : FanState) (env : InitEnv)
    (h : init s env = .ok s1) :
    ∃ st D, env.get_status_result = .ok st ∧
      dictGet st PHILIPS_DEVICE_ID = some D ∧
      s1 = { s with
        client_open := true,
        observer_task := none,
        unique_id := some (s.model ++ "-" ++ pyStr D) } := by
  cases hc : env.create_result with
  | error e => simp [init, hc] at h
  | ok u =>
    cases hg : env.get_status_result with
    | error e => simp [init, hc, hg] at h
    | ok st =>
      cases hd : dictGet st PHILIPS_DEVICE_ID with
      | none => simp [init, hc, hg, hd] at h
      | some D =>
        refine ⟨st, D, rfl, hd, ?_⟩
        simp [init, hc, hg, hd] at h
        exact h.symm

/-- No event changes the unique id. -/
theorem step_unique_id (s : FanState) (e : Event) :
    (step s e).unique_id = s.unique_id := by
  cases e with
  | addedToHass => rfl
  | observeUpdate T =>
    show (if s.observer_task = some true then update_status s T else s).unique_id
      = s.unique_id
    split <;> rfl
  | observeStreamFailed =>
    show (if s.observer_task = some true
        then { s with observer_task := some false } else s).unique_id
      = s.unique_id
    split <;> rfl
  | willRemoveFromHass => rfl

/-- No trace of events changes the unique id. -/
theorem run_unique_id (evts : List Event) (s : FanState) :
    (run s evts).unique_id = s.unique_id := by
  induction evts generalizing s with
  | nil => rfl
  | cons e es ih => rw [run, ih, step_unique_id]

/-- Claim C1, counterexample: the claim says the cached status read by
the attribute, speed and on/off accessors equals the initial fetch
snapshot until the first observe update. In the code the initial fetch
result is discarded after the device id is read, and the constructor
initialises the differently named field device_state, so after a
successful init on the sample input the cache the readers use is still
unset and differs from the fetched snapshot. -/
theorem claim_C1_counterexample :
    init sampleFan sampleEnv = .ok sampleInitState ∧
    sampleInitState.device_status ≠ some sampleFetch ∧
    sampleInitState.device_status = none := by
  refine ⟨init_sample_eq, by decide, rfl⟩

/-- Claim C1, amended: after a successful init the cached device
status is unset (none) and the constructor-initialised device_state
field is the empty dict — the initial fetch result is not cached;
only consuming an observe update sets the cache, and then it equals
exactly the consumed snapshot. -/
theorem claim_C1 (host model name icon : String) (env : InitEnv)
    (s1 sAny : FanState) (T : Status)
    (h : init (mkFan host model name icon) env = .ok s1) :
    s1.device_status = none ∧ s1.device_state = [] ∧
    (update_status sAny T).device_status = some T := by
  obtain ⟨st, D, hg, hd, hs⟩ := init_ok_shape _ _ _ h
  subst hs
  exact ⟨rfl, rfl, rfl⟩

/-- Claim C1, witness: the amended claim evaluated on the sample
initialisation and the sample snapshot. -/
theorem claim_C1_witness :
    sampleInitState.device_status = none ∧
    sampleInitState.device_state = [] ∧
    (update_status sampleInitState sampleFetch).device_status = some sampleFetch :=
  claim_C1 "10.0.0.5" MODEL_AC4236 "Philips AirPurifier" "mdi:air-purifier"
    sampleEnv sampleInitState sampleInitState sampleFetch (by rfl)

/-- Claim C2, counterexample: the claim says removal from the host
stops the observe loop, after which no further snapshots are consumed
or cached. In the code async_will_remove_from_hass is the inherited
no-op, so after removal the observe task is still running and a later
snapshot is still consumed and cached. -/
theorem claim_C2_counterexample :
    (run sampleInitState
        [.addedToHass, .willRemoveFromHass, .observeUpdate sampleFetch]).device_status
      = some sampleFetch ∧
    (run sampleInitState [.addedToHass, .willRemoveFromHass]).observer_task
      = some true := by
  exact ⟨rfl, rfl⟩

/-- Claim C2, amended: removal from the host performs no cleanup: it
leaves the entity state unchanged (so it is idempotent only because it
does nothing), does not cancel the observe task, does not release the
transport, and observe updates continue to be consumed and cached
after removal. -/
theorem claim_C2 (s : FanState) (T : Status)
    (hrun : s.observer_task = some true) :
    step s .willRemoveFromHass = s ∧
    (step (step s .willRemoveFromHass) (.observeUpdate T)).device_status
      = some T := by
  refine ⟨rfl, ?_⟩
  show (if s.observer_task = some true then update_status s T else s).device_status
    = some T
  rw [if_pos hrun]
  rfl

/-- Claim C2, witness: the amended claim evaluated on the sample
entity with a running observe task. -/
theorem claim_C2_witness :
    step (step sampleInitState .addedToHass) .willRemoveFromHass
      = step sampleInitState .addedToHass ∧
    (step (step (step sampleInitState .addedToHass) .willRemoveFromHass)
        (.observeUpdate sampleFetch)).device_status = some sampleFetch :=
  claim_C2 (step sampleInitState .addedToHass) sampleFetch (by rfl)

/-- Claim C3, counterexample: the claim says a failing transport open
makes init raise the not-ready error. CoAPClient.create stands before
the try block of init, so its exception propagates unchanged instead
of becoming PlatformNotReady. -/
theorem claim_C3_counterexample :
    init sampleFan
        { create_result := .error (.raised "ConnectError"),
          get_status_result := .ok sampleFetch }
      = .error (.raised "ConnectError") ∧
    PyError.raised "ConnectError" ≠ PyError.platformNotReady := by
  exact ⟨rfl, by decide⟩

/-- Claim C3, amended: a failing initial fetch, or a first snapshot
without the device id key, makes init raise PlatformNotReady, while a
failing transport open propagates its own exception unchanged; in
every failing case the caller observes an error, no entity state is
returned, and platform setup adds no entity. -/
theorem claim_C3 (host name icon : String) (e : PyError) (st : Status)
    (env2 : InitEnv) (e2 : PyError)
    (hnokey : dictGet st PHILIPS_DEVICE_ID = none)
    (herr : init (mkFan host MODEL_AC4236 name icon) env2 = .error e2) :
    init (mkFan host MODEL_AC4236 name icon)
        { create_result := .error e, get_status_result := .ok st } = .error e ∧
    init (mkFan host MODEL_AC4236 name icon)
        { create_result := .ok (), get_status_result := .error e }
      = .error .platformNotReady ∧
    init (mkFan host MODEL_AC4236 name icon)
        { create_result := .ok (), get_status_result := .ok st }
      = .error .platformNotReady ∧
    async_setup_platform host MODEL_AC4236 name icon env2 = .error e2 := by
  refine ⟨rfl, rfl, ?_, ?_⟩
  · simp [init, hnokey]
  · simp [async_setup_platform, herr]

/-- Claim C3, witness: the amended claim evaluated on a first snapshot
without a device id. -/
theorem claim_C3_witness :
    init (mkFan "10.0.0.5" MODEL_AC4236 "n" "i")
        { create_result := .ok (), get_status_result := .ok [] }
      = .error .platformNotReady :=
  (claim_C3 "10.0.0.5" "n" "i" (.raised "timeout") []
    { create_result := .ok (),
      get_status_result := .error (.raised "timeout") }
    .platformNotReady (by rfl) (by rfl)).2.2.1

/-- Claim C4: for every successful initialisation whose first fetched
snapshot carries device id D, the unique id equals the model, a dash
and the device id, and no later trace of events changes it. -/
theorem claim_C4 (host model name icon : String) (env : InitEnv) (st : Status)
    (D : PValue) (s1 : FanState) (evts : List Event)
    (hg : env.get_status_result = .ok st)
    (hD : dictGet st PHILIPS_DEVICE_ID = some D)
    (h : init (mkFan host model name icon) env = .ok s1) :
    s1.unique_id = some (model ++ "-" ++ pyStr D) ∧
    (run s1 evts).unique_id = some (model ++ "-" ++ pyStr D) := by
  obtain ⟨st2, D2, hg2, hd2, hs⟩ := init_ok_shape _ _ _ h
  rw [hg] at hg2
  cases Except.ok.inj hg2
  rw [hD] at hd2
  cases Option.some.inj hd2
  subst hs
  exact ⟨rfl, by rw [run_unique_id]; rfl⟩


/-- Claim C4, witness: the sample initialisation yields unique id
AC4236-AC4236-001 and a trace of events leaves it unchanged. -/
theorem claim_C4_witness :
    sampleInitState.unique_id
      = some (MODEL_AC4236 ++ "-" ++ pyStr (.str "AC4236-001")) ∧
    (run sampleInitState [.addedToHass, .observeUpdate sampleFetch]).unique_id
      = some (MODEL_AC4236 ++ "-" ++ pyStr (.str "AC4236-001")) :=
  claim_C4 "10.0.0.5" MODEL_AC4236 "Philips AirPurifier" "mdi:air-purifier"
    sampleEnv sampleFetch (.str "AC4236-001") sampleInitState
    [.addedToHass, .observeUpdate sampleFetch] rfl rfl (by rfl)

/-- Claim C5: for every cached status mapping the extracted attribute
dict has an entry for a table row exactly when the corresponding
protocol key is present in the status (absent keys are skipped
silently), and a name outside the attribute table never appears. -/
theorem claim_C5 (S : Status) (r : String × String × Option ValueMap)
    (a : String) (hr : r ∈ attributesTable)
    (ha : a ∉ attributesTable.map (fun row => row.1)) :
    (((device_state_attributes S).lookup r.1).isSome
      ↔ (dictGet S r.2.1).isSome) ∧
    (device_state_attributes S).lookup a = none := by
  have hnd : (attributesTable.map (fun row => row.1)).Nodup := by decide
  constructor
  · rw [device_state_attributes_eq,
      foldl_attrStep_lookup_mem S attributesTable [] r hr hnd]
    cases hg : dictGet S r.2.1 <;> simp
  · rw [device_state_attributes_eq,
      foldl_attrStep_lookup_not_mem S attributesTable [] a ha]
    rfl

/-- Claim C5, witness: the device id row evaluated on the sample
snapshot, and an unknown attribute name evaluated there. -/
theorem claim_C5_witness :
    (((device_state_attributes sampleFetch).lookup ATTR_DEVICE_ID).isSome
      ↔ (dictGet sampleFetch PHILIPS_DEVICE_ID).isSome) ∧
    (device_state_attributes sampleFetch).lookup "unknown_attribute" = none :=
  claim_C5 sampleFetch (ATTR_DEVICE_ID, PHILIPS_DEVICE_ID, none)
    "unknown_attribute" (by simp [attributesTable]) (by decide)

/-- Claim C6: a snapshot consumed while the observe task runs goes
through update_status, which replaces the whole cached mapping by the
consumed snapshot, sets the on/off state to whether the power key
holds the string 1, and marks the entity available. -/
theorem claim_C6 (s : FanState) (T : Status)
    (hrun : s.observer_task = some true) :
    step s (.observeUpdate T) = update_status s T ∧
    (update_status s T).device_status = some T ∧
    (update_status s T).state
      = some (decide (dictGet T PHILIPS_POWER = some (.str "1"))) ∧
    (update_status s T).available = true := by
  refine ⟨?_, rfl, rfl, rfl⟩
  show (if s.observer_task = some true then update_status s T else s)
    = update_status s T
  rw [if_pos hrun]

/-- Claim C6, witness: the sample snapshot consumed by the sample
entity after it was added to the host. -/
theorem claim_C6_witness :
    step (step sampleInitState .addedToHass) (.observeUpdate sampleFetch)
      = update_status (step sampleInitState .addedToHass) sampleFetch ∧
    (update_status (step sampleInitState .addedToHass) sampleFetch).device_status
      = some sampleFetch :=
  ⟨(claim_C6 (step sampleInitState .addedToHass) sampleFetch rfl).1,
   (claim_C6 (step sampleInitState .addedToHass) sampleFetch rfl).2.1⟩

/-- Claim C7: the named-speed translation of the AC4236 model: power 0
means off regardless of mode; otherwise mode M with speed 1 or 2 maps
to the two manual speeds, and modes AG, S and T map to auto, sleep and
turbo. -/
theorem claim_C7 (S : Status) :
    (dictGet S PHILIPS_POWER = some (.str "0") → speed S = some SPEED_OFF) ∧
    (dictGet S PHILIPS_POWER ≠ some (.str "0") →
      (dictGet S PHILIPS_MODE = some (.str "M") →
        dictGet S PHILIPS_SPEED = some (.str "1") → speed S = some SPEED_1) ∧
      (dictGet S PHILIPS_MODE = some (.str "M") →
        dictGet S PHILIPS_SPEED = some (.str "2") → speed S = some SPEED_2) ∧
      (dictGet S PHILIPS_MODE = some (.str "AG") →
        speed S = some SPEED_MODE_AUTO) ∧
      (dictGet S PHILIPS_MODE = some (.str "S") →
        speed S = some SPEED_MODE_SLEEP) ∧
      (dictGet S PHILIPS_MODE = some (.str "T") →
        speed S = some SPEED_MODE_TURBO)) := by
  constructor
  · intro hp
    simp [speed, hp]
  · intro hp
    refine ⟨?_, ?_, ?_, ?_, ?_⟩
    · intro hm hs
      simp [speed, hp, hm, hs]
    · intro hm hs
      simp [speed, hp, hm, hs]
    · intro hm
      simp [speed, hp, hm]
    · intro hm
      simp [speed, hp, hm]
    · intro hm
      simp [speed, hp, hm]

/-- Claim C7, witness: the sample snapshot (power 1, mode M, speed 2)
translates to the manual speed 2. -/
theorem claim_C7_witness : speed sampleFetch = some SPEED_2 :=
  ((claim_C7 sampleFetch).2 (by decide)).2.1 (by decide) (by decide)

/-- Claim C8: the availability flag starts false at construction, is
still false after a successful init, becomes true exactly when a
snapshot is consumed by the running observe task, is preserved by
every other event (stream failure included), and once true no event
resets it. -/
theorem claim_C8 (host model name icon : String) (env : InitEnv)
    (s s1 : FanState) (e : Event) (T : Status)
    (hinit : init (mkFan host model name icon) env = .ok s1) :
    (mkFan host model name icon).available = false ∧
    s1.available = false ∧
    (s.available = true → (step s e).available = true) ∧
    (s.observer_task = some true →
      (step s (.observeUpdate T)).available = true) ∧
    ((∀ U, e ≠ .observeUpdate U) → (step s e).available = s.available) ∧
    (step s .observeStreamFailed).available = s.available := by
  obtain ⟨st, D, hg, hd, hs⟩ := init_ok_shape _ _ _ hinit
  subst hs
  refine ⟨rfl, rfl, ?_, ?_, ?_, ?_⟩
  · intro hav
    cases e with
    | addedToHass => exact hav
    | observeUpdate U =>
      show (if s.observer_task = some true then update_status s U else s).available
        = true
      split
      · rfl
      · exact hav
    | observeStreamFailed =>
      show (if s.observer_task = some true
          then { s with observer_task := some false } else s).available = true
      split
      · exact hav
      · exact hav
    | willRemoveFromHass => exact hav
  · intro hrun
    show (if s.observer_task = some true then update_status s T else s).available
      = true
    rw [if_pos hrun]
    rfl
  · intro hne
    cases e with
    | addedToHass => rfl
    | observeUpdate U => exact absurd rfl (hne U)
    | observeStreamFailed =>
      show (if s.observer_task = some true
          then { s with observer_task := some false } else s).available
        = s.available
      split <;> rfl
    | willRemoveFromHass => rfl
  · show (if s.observer_task = some true
        then { s with observer_task := some false } else s).available
      = s.available
    split <;> rfl

/-- Claim C8, witness: the sample init result is unavailable, and
consuming the sample snapshot after being added makes it available. -/
theorem claim_C8_witness :
    sampleInitState.available = false ∧
    (step (step sampleInitState .addedToHass)
        (.observeUpdate sampleFetch)).available = true :=
  ⟨(claim_C8 "10.0.0.5" MODEL_AC4236 "Philips AirPurifier" "mdi:air-purifier"
      sampleEnv sampleInitState sampleInitState .addedToHass sampleFetch
      (by rfl)).2.1,
   (claim_C8 "10.0.0.5" MODEL_AC4236 "Philips AirPurifier" "mdi:air-purifier"
      sampleEnv (step sampleInitState .addedToHass) sampleInitState
      .addedToHass sampleFetch (by rfl)).2.2.2.1 rfl⟩

/-- Claim C9: is_on is the None placeholder at construction and still
after a successful init; after a consumed snapshot it is true exactly
when the snapshot maps the power key to the string 1, and a snapshot
with the key absent or bound to any other value yields false, never an
error. -/
theorem claim_C9 (host model name icon : String) (env : InitEnv)
    (s s1 : FanState) (T : Status) (v : PValue)
    (hinit : init (mkFan host model name icon) env = .ok s1) :
    is_on (mkFan host model name icon) = none ∧
    is_on s1 = none ∧
    (is_on (update_status s T) = some true
      ↔ dictGet T PHILIPS_POWER = some (.str "1")) ∧
    (dictGet T PHILIPS_POWER = none →
      is_on (update_status s T) = some false) ∧
    (dictGet T PHILIPS_POWER = some v → v ≠ .str "1" →
      is_on (update_status s T) = some false) := by
  obtain ⟨st, D, hg, hd, hs⟩ := init_ok_shape _ _ _ hinit
  subst hs
  refine ⟨rfl, rfl, ?_, ?_, ?_⟩
  · show some (decide (dictGet T PHILIPS_POWER = some (.str "1"))) = some true ↔ _
    constructor
    · intro hh
      exact of_decide_eq_true (Option.some.inj hh)
    · intro hh
      rw [hh]
      simp
  · intro hnone
    simp [is_on, update_status, hnone]
  · intro hv hne
    simp [is_on, update_status, hv, hne]

/-- Claim C9, witness: the sample init result reports None, and the
sample snapshot with power 1 reports on. -/
theorem claim_C9_witness :
    is_on sampleInitState = none ∧
    is_on (update_status sampleInitState sampleFetch) = some true :=
  ⟨(claim_C9 "10.0.0.5" MODEL_AC4236 "Philips AirPurifier" "mdi:air-purifier"
      sampleEnv sampleInitState sampleInitState sampleFetch (.str "0")
      (by rfl)).2.1,
   ((claim_C9 "10.0.0.5" MODEL_AC4236 "Philips AirPurifier" "mdi:air-purifier"
      sampleEnv sampleInitState sampleInitState sampleFetch (.str "0")
      (by rfl)).2.2.1).mpr (by decide)⟩

/-- Claim C10: for the two dict value maps of the table (display
backlight and preferred index) the reported attribute value is the
mapped value when the raw value is a key of the map and the raw value
unchanged otherwise, and the runtime callable is always applied to the
raw value. -/
theorem claim_C10 (S : Status) (v : PValue) :
    (dictGet S PHILIPS_DISPLAY_BACKLIGHT = some v →
      (device_state_attributes S).lookup ATTR_DISPLAY_BACKLIGHT
        = some (match PHILIPS_DISPLAY_BACKLIGHT_MAP.lookup v with
                | some w => w
                | none => v)) ∧
    (dictGet S PHILIPS_PREFERRED_INDEX = some v →
      (device_state_attributes S).lookup ATTR_PREFERRED_INDEX
        = some (match PHILIPS_PREFERRED_INDEX_MAP.lookup v with
                | some w => w
                | none => v)) ∧
    (dictGet S PHILIPS_RUNTIME = some v →
      (device_state_attributes S).lookup ATTR_RUNTIME
        = some (formatRuntime v)) := by
  have hnd : (attributesTable.map (fun row => row.1)).Nodup := by decide
  refine ⟨?_, ?_, ?_⟩
  · intro hb
    rw [device_state_attributes_eq,
      foldl_attrStep_lookup_mem S attributesTable []
        (ATTR_DISPLAY_BACKLIGHT, PHILIPS_DISPLAY_BACKLIGHT,
          some (.dictMap PHILIPS_DISPLAY_BACKLIGHT_MAP))
        (by simp [attributesTable]) hnd]
    simp only [hb]
    rfl
  · intro hb
    rw [device_state_attributes_eq,
      foldl_attrStep_lookup_mem S attributesTable []
        (ATTR_PREFERRED_INDEX, PHILIPS_PREFERRED_INDEX,
          some (.dictMap PHILIPS_PREFERRED_INDEX_MAP))
        (by simp [attributesTable]) hnd]
    simp only [hb]
    rfl
  · intro hb
    rw [device_state_attributes_eq,
      foldl_attrStep_lookup_mem S attributesTable []
        (ATTR_RUNTIME, PHILIPS_RUNTIME, some (.fnMap formatRuntime))
        (by simp [attributesTable]) hnd]
    simp only [hb]
    rfl

/-- A status used by the C10 witness: a mapped backlight token and a
runtime of 90061000 milliseconds. -/
def valueMapSample : Status :=
  [(PHILIPS_DISPLAY_BACKLIGHT, .str "1"), (PHILIPS_RUNTIME, .int 90061000)]

/-- Claim C10, witness: on the sample status the backlight token 1 is
translated through the dict map and the runtime callable is applied to
the millisecond count. -/
theorem claim_C10_witness :
    (device_state_attributes valueMapSample).lookup ATTR_DISPLAY_BACKLIGHT
      = some (match PHILIPS_DISPLAY_BACKLIGHT_MAP.lookup (.str "1") with
              | some w => w
              | none => .str "1") ∧
    (device_state_attributes valueMapSample).lookup ATTR_RUNTIME
      = some (formatRuntime (.int 90061000)) :=
  ⟨(claim_C10 valueMapSample (.str "1")).1 (by decide),
   (claim_C10 valueMapSample (.int 90061000)).2.2 (by decide)⟩

end PhilipsAirPurifier
